import Mathlib

/-!
# Marshalling boundary of the FFI binding (`src/ffi.cc`)

A shallow embedding of `use_ffi_signed`, `get_ffi_type`, `lua_push_cdata`,
`write_int` and `lua_check_cdata`, followed by the properties of the
specification that are settled against it.

Conventions of the embedding:

* machine integers are `Nat` (bit patterns, unsigned values) or `Int`
  (signed values); every narrowing is an explicit reduction modulo a power
  of two;
* memory is little-endian; a storage cell is the list of its bytes, lowest
  address first;
* `luaL_error` does not return: a decode that raises leaves the cell as it
  was when the error was raised and reports the message.
-/

namespace ffi

/-! ## Platform constants -/

/-- The constants of the C implementation that the templates and `sizeof`
tests of `ffi.cc` read: storage widths in bytes and the default signedness
of plain `char`. `sizeof(char)` and `sizeof(bool)` are 1, `sizeof(float)` is
4, `sizeof(double)` and `sizeof(long long)` are 8 and the exact-width types
have their nominal width on every platform the call library supports, so
they are not fields. -/
structure Platform where
  char_is_signed : Bool
  sizeof_short : Nat
  sizeof_int : Nat
  sizeof_long : Nat
  sizeof_size_t : Nat
  sizeof_intptr_t : Nat
  sizeof_time_t : Nat
  sizeof_pointer : Nat
  sizeof_long_double : Nat
  sizeof_ffi_arg : Nat
  sizeof_lua_Integer : Nat
  deriving DecidableEq, Repr

/-- The usual 64-bit little-endian data model (LP64), for either default
signedness of plain `char`; `ffi_arg` and `lua_Integer` are 64 bits wide. -/
def lp64 (char_is_signed : Bool) : Platform :=
  { char_is_signed := char_is_signed
    sizeof_short := 2
    sizeof_int := 4
    sizeof_long := 8
    sizeof_size_t := 8
    sizeof_intptr_t := 8
    sizeof_time_t := 8
    sizeof_pointer := 8
    sizeof_long_double := 16
    sizeof_ffi_arg := 8
    sizeof_lua_Integer := 8 }

/-- The C storage types that instantiate the template parameter `T` of
`use_ffi_signed<T>` and `write_int<T>` and the `rtype` argument of the
`INT_CASE` families. -/
inductive ctype
  | char
  | short
  | int
  | long
  | long_long
  | int8_t
  | int16_t
  | int32_t
  | int64_t
  | size_t
  | intptr_t
  | time_t
  deriving DecidableEq, Repr

/-- The value of `sizeof(T)`, in bytes. -/
def sizeof (P : Platform) : ctype → Nat
  | .char => 1
  | .short => P.sizeof_short
  | .int => P.sizeof_int
  | .long => P.sizeof_long
  | .long_long => 8
  | .int8_t => 1
  | .int16_t => 2
  | .int32_t => 4
  | .int64_t => 8
  | .size_t => P.sizeof_size_t
  | .intptr_t => P.sizeof_intptr_t
  | .time_t => P.sizeof_time_t

/-- The value of `std::numeric_limits<T>::is_signed`: only plain `char`
depends on the platform, `size_t` is unsigned, the rest are signed. -/
def is_signed (P : Platform) : ctype → Bool
  | .char => P.char_is_signed
  | .size_t => false
  | _ => true

/-! ## Type descriptors -/

namespace parser

/-- Modelled from the spec: the builtin kind enumeration of the type
description subsystem (its header is not part of the sources). The named
members are the `C_BUILTIN_*` constants that `ffi.cc` mentions; `other`
stands for every further member (custom, aggregate, void, invalid). -/
inductive c_builtin
  | C_BUILTIN_PTR
  | C_BUILTIN_CHAR
  | C_BUILTIN_SHORT
  | C_BUILTIN_INT
  | C_BUILTIN_LONG
  | C_BUILTIN_LLONG
  | C_BUILTIN_INT8
  | C_BUILTIN_INT16
  | C_BUILTIN_INT32
  | C_BUILTIN_INT64
  | C_BUILTIN_SIZE
  | C_BUILTIN_INTPTR
  | C_BUILTIN_TIME
  | C_BUILTIN_FLOAT
  | C_BUILTIN_DOUBLE
  | C_BUILTIN_LDOUBLE
  | C_BUILTIN_BOOL
  | other (code : Nat)
  deriving DecidableEq, Repr

/-- Modelled from the spec: the explicit-unsigned qualifier bit of the flag
word `cv` (declared in the absent header; the spec only says that it is a
flag of its own). -/
def C_CV_UNSIGNED : Nat := 4

/-- Modelled from the spec: the explicit-signed qualifier bit of the flag
word `cv` (declared in the absent header; the spec only says that it is a
flag of its own). -/
def C_CV_SIGNED : Nat := 8

/-- Modelled from the spec: a C-like type descriptor, a builtin kind paired
with its qualifier flag word; `ffi.cc` reads it through `type()` and
`cv()` only. -/
structure c_type where
  type : c_builtin
  cv : Nat
  deriving DecidableEq, Repr

end parser

open parser
open parser.c_builtin

/-- Modelled from the spec: the ABI type descriptors of the call library: a
pointer, a signed or unsigned integer of a given byte width, the 32-bit
float, the 64-bit float and the extended float. -/
inductive ffi_type
  | pointer
  | sint (bytes : Nat)
  | uint (bytes : Nat)
  | float
  | double
  | longdouble
  deriving DecidableEq, Repr

/-- Byte width of the storage an ABI descriptor stands for. -/
def ffi_type.size (P : Platform) : ffi_type → Nat
  | .pointer => P.sizeof_pointer
  | .sint n => n
  | .uint n => n
  | .float => 4
  | .double => 8
  | .longdouble => P.sizeof_long_double

/-- Whether an ABI descriptor is a signed integer descriptor. -/
def ffi_type.is_sint : ffi_type → Bool
  | .sint _ => true
  | _ => false

def ffi_type_pointer : ffi_type := .pointer
def ffi_type_sint8 : ffi_type := .sint 1
def ffi_type_uint8 : ffi_type := .uint 1
def ffi_type_sint16 : ffi_type := .sint 2
def ffi_type_uint16 : ffi_type := .uint 2
def ffi_type_sint32 : ffi_type := .sint 4
def ffi_type_uint32 : ffi_type := .uint 4
def ffi_type_sint64 : ffi_type := .sint 8
def ffi_type_uint64 : ffi_type := .uint 8
def ffi_type_float : ffi_type := .float
def ffi_type_double : ffi_type := .double
def ffi_type_longdouble : ffi_type := .longdouble

/-- The call library names the descriptors of `char`, `short`, `int` and
`long` after the C type and binds each to the sized descriptor of the
platform width of that type. -/
def ffi_type_schar : ffi_type := .sint 1
def ffi_type_uchar : ffi_type := .uint 1
def ffi_type_sshort (P : Platform) : ffi_type := .sint P.sizeof_short
def ffi_type_ushort (P : Platform) : ffi_type := .uint P.sizeof_short
def ffi_type_sint (P : Platform) : ffi_type := .sint P.sizeof_int
def ffi_type_uint (P : Platform) : ffi_type := .uint P.sizeof_int
def ffi_type_slong (P : Platform) : ffi_type := .sint P.sizeof_long
def ffi_type_ulong (P : Platform) : ffi_type := .uint P.sizeof_long

/-! ## `use_ffi_signed` and `get_ffi_type` -/

/-- The template `use_ffi_signed<T>(cv)`. -/
def use_ffi_signed (P : Platform) (T : ctype) (cv : Nat) : Bool :=
  if cv &&& C_CV_SIGNED ≠ 0 then
    true
  else if cv &&& C_CV_UNSIGNED ≠ 0 then
    false
  else
    is_signed P T

/-- The expansion of `INT_CASE(bname, rtype, ftype)`; `s` and `u` are
`ffi_type_s##ftype` and `ffi_type_u##ftype`. -/
def INT_CASE (P : Platform) (cv : Nat) (rtype : ctype) (s u : ffi_type) : ffi_type :=
  if use_ffi_signed P rtype cv then s else u

/-- The expansion of `INT_CASE64(bname, rtype)`. -/
def INT_CASE64 (P : Platform) (cv : Nat) (rtype : ctype) : ffi_type :=
  if sizeof P rtype = 8 then
    if cv &&& C_CV_SIGNED ≠ 0 then ffi_type_sint64 else ffi_type_uint64
  else if sizeof P rtype = 4 then
    if cv &&& C_CV_SIGNED ≠ 0 then ffi_type_sint32 else ffi_type_uint32
  else if sizeof P rtype = 2 then
    if cv &&& C_CV_SIGNED ≠ 0 then ffi_type_sint16 else ffi_type_uint16
  else
    if cv &&& C_CV_SIGNED ≠ 0 then ffi_type_sint8 else ffi_type_uint8

/-- The function `get_ffi_type(tp)`. -/
def get_ffi_type (P : Platform) (tp : c_type) : ffi_type :=
  let cv := tp.cv
  match tp.type with
  | C_BUILTIN_PTR => ffi_type_pointer
  | C_BUILTIN_CHAR => INT_CASE P cv .char ffi_type_schar ffi_type_uchar
  | C_BUILTIN_SHORT => INT_CASE P cv .short (ffi_type_sshort P) (ffi_type_ushort P)
  | C_BUILTIN_INT => INT_CASE P cv .int (ffi_type_sint P) (ffi_type_uint P)
  | C_BUILTIN_LONG => INT_CASE P cv .long (ffi_type_slong P) (ffi_type_ulong P)
  | C_BUILTIN_LLONG => INT_CASE P cv .int64_t ffi_type_sint64 ffi_type_uint64
  | C_BUILTIN_INT8 => INT_CASE P cv .int8_t ffi_type_sint8 ffi_type_uint8
  | C_BUILTIN_INT16 => INT_CASE P cv .int16_t ffi_type_sint16 ffi_type_uint16
  | C_BUILTIN_INT32 => INT_CASE P cv .int32_t ffi_type_sint32 ffi_type_uint32
  | C_BUILTIN_INT64 => INT_CASE P cv .int64_t ffi_type_sint64 ffi_type_uint64
  | C_BUILTIN_SIZE => INT_CASE64 P cv .size_t
  | C_BUILTIN_INTPTR => INT_CASE64 P cv .intptr_t
  | C_BUILTIN_TIME =>
    if sizeof P .time_t = 8 then ffi_type_sint64 else ffi_type_sint32
  | C_BUILTIN_FLOAT => ffi_type_float
  | C_BUILTIN_DOUBLE => ffi_type_double
  | C_BUILTIN_LDOUBLE => ffi_type_longdouble
  | C_BUILTIN_BOOL => ffi_type_uchar
  | _ => ffi_type_sint P

/-! ## Integer conversions and storage -/

/-- The value of a C conversion of `v` to an unsigned integer type of `n`
bytes: `v` reduced modulo `2 ^ (8 * n)`. -/
def to_unsigned (n : Nat) (v : Int) : Int :=
  v % 2 ^ (8 * n)

/-- The value of a C conversion of `v` to a signed integer type of `n`
bytes (two's complement wrap-around). -/
def to_signed (n : Nat) (v : Int) : Int :=
  let m := v % 2 ^ (8 * n)
  if m < 2 ^ (8 * n - 1) then m else m - 2 ^ (8 * n)

/-- The two's complement bit pattern of the integer `x` in an object of `n`
bytes. -/
def bit_pattern (n : Nat) (x : Int) : Nat :=
  (x % 2 ^ (8 * n)).toNat

/-- The `n` bytes of the bit pattern `x`, lowest first. -/
def le_bytes (n : Nat) (x : Nat) : List Nat :=
  (List.range n).map (fun i => x / 256 ^ i % 256)

/-- A store of the `n`-byte bit pattern `x` at the address of the cell:
`*reinterpret_cast<U *>(stor) = ...` for a type `U` of `n` bytes. -/
def store (n : Nat) (x : Nat) (stor : List Nat) : List Nat :=
  le_bytes n x ++ stor.drop n

/-- The bit pattern held by the first `n` bytes of the cell. -/
def load (n : Nat) (stor : List Nat) : Nat :=
  (stor.take n).foldr (fun b acc => b + 256 * acc) 0

/-! ## Dynamic values -/

/-- Modelled from the spec: a dynamic value of the scripting runtime at a
stack index, as the runtime's accessors show it. A number carries
`tointeger`, the result of `lua_tointeger`, `tonumber`, the binary64 bit
pattern of the result of `lua_tonumber`, and `tofloat`, the binary32 bit
pattern of that result cast to `float` (floating-point rounding is not
modelled). A string carries the address `lua_tostring` returns, a userdata
the address `lua_touserdata` returns. `other` is any further tag, with the
name `lua_typename` gives it. -/
inductive LuaValue
  | nil
  | boolean (b : Bool)
  | number (tointeger : Int) (tonumber : Nat) (tofloat : Nat)
  | string (tostring : Nat)
  | userdata (touserdata : Nat)
  | lightuserdata (touserdata : Nat)
  | thread
  | table
  | function
  | other (typename : String)
  deriving DecidableEq, Repr

def lua_tointeger : LuaValue → Int
  | .number i _ _ => i
  | _ => 0

def lua_toboolean : LuaValue → Bool
  | .nil => false
  | .boolean b => b
  | _ => true

def lua_touserdata : LuaValue → Nat
  | .userdata p => p
  | .lightuserdata p => p
  | _ => 0

/-- Modelled from the spec: the value `lua_push_cdata` leaves on top of the
runtime stack, named after the push call that made it: `lua_pushboolean`,
`lua_pushnumber` (binary64 bit pattern), `lua_pushinteger`,
`lua_pushstring`. -/
inductive Pushed
  | boolean (b : Bool)
  | number (bits : Nat)
  | integer (i : Int)
  | string (s : String)
  deriving DecidableEq, Repr

/-! ## `lua_push_cdata` -/

/-- The expression `lua_Integer(*reinterpret_cast<ffi_sarg *>(&value))`. -/
def push_signed (P : Platform) (value : Nat) : Pushed :=
  .integer (to_signed P.sizeof_lua_Integer (to_signed P.sizeof_ffi_arg value))

/-- The expression `lua_Integer(value)`. -/
def push_unsigned (P : Platform) (value : Nat) : Pushed :=
  .integer (to_signed P.sizeof_lua_Integer value)

/-- The function `lua_push_cdata(L, tp, value)`; `value` is the `ffi_arg`
cell. -/
def lua_push_cdata (P : Platform) (tp : c_type) (value : Nat) : Pushed :=
  match tp.type with
  | C_BUILTIN_BOOL => .boolean (to_signed P.sizeof_int value != 0)
  | C_BUILTIN_FLOAT => .number (value % 2 ^ 64)
  | C_BUILTIN_DOUBLE => .number (value % 2 ^ 64)
  | C_BUILTIN_LDOUBLE => .string "NYI"
  | C_BUILTIN_CHAR =>
    if use_ffi_signed P .char tp.cv then push_signed P value else push_unsigned P value
  | C_BUILTIN_SHORT =>
    if use_ffi_signed P .int tp.cv then push_signed P value else push_unsigned P value
  | C_BUILTIN_INT =>
    if use_ffi_signed P .int tp.cv then push_signed P value else push_unsigned P value
  | C_BUILTIN_INT8 =>
    if use_ffi_signed P .int tp.cv then push_signed P value else push_unsigned P value
  | C_BUILTIN_INT16 =>
    if use_ffi_signed P .int tp.cv then push_signed P value else push_unsigned P value
  | C_BUILTIN_INT32 =>
    if use_ffi_signed P .int tp.cv then push_signed P value else push_unsigned P value
  | C_BUILTIN_LONG => .string "NYI"
  | C_BUILTIN_INT64 => .string "NYI"
  | C_BUILTIN_SIZE => .string "NYI"
  | C_BUILTIN_INTPTR => .string "NYI"
  | C_BUILTIN_TIME => .string "NYI"
  | _ => .string "value too big"

/-! ## `write_int` and `lua_check_cdata` -/

/-- The template `write_int<T>(L, index, cv, stor)`. -/
def write_int (P : Platform) (T : ctype) (L : LuaValue) (cv : Nat)
    (stor : List Nat) : List Nat :=
  let v := lua_tointeger L
  if use_ffi_signed P T cv then
    store (sizeof P T) (bit_pattern (sizeof P T) (to_signed (sizeof P T) v)) stor
  else
    store (sizeof P T) (bit_pattern (sizeof P T) (to_unsigned (sizeof P T) v)) stor

/-- Outcome of a decode: the storage cell afterwards and the message of the
error raised, if one was. -/
structure Decoded where
  stor : List Nat
  error : Option String
  deriving DecidableEq, Repr

/-- The call `luaL_error(L, msg)`: it does not return, the cell stays as it
is. -/
def luaL_error (stor : List Nat) (msg : String) : Decoded :=
  { stor := stor, error := some msg }

/-- The function `lua_check_cdata(L, tp, stor, index)`; `L` is the value at
`index`. -/
def lua_check_cdata (P : Platform) (L : LuaValue) (tp : c_type)
    (stor : List Nat) : Decoded :=
  match L with
  | .nil =>
    match tp.type with
    | C_BUILTIN_PTR => { stor := store P.sizeof_pointer 0 stor, error := none }
    | _ => luaL_error stor "bad conversion"
  | .boolean _ =>
    match tp.type with
    | C_BUILTIN_BOOL =>
      { stor := store 1 (if lua_toboolean L then 1 else 0) stor, error := none }
    | _ => luaL_error stor "bad conversion"
  | .number _ tonumber tofloat =>
    match tp.type with
    | C_BUILTIN_FLOAT => { stor := store 4 (tofloat % 2 ^ 32) stor, error := none }
    | C_BUILTIN_DOUBLE => { stor := store 8 (tonumber % 2 ^ 64) stor, error := none }
    | C_BUILTIN_CHAR => { stor := write_int P .char L tp.cv stor, error := none }
    | C_BUILTIN_SHORT => { stor := write_int P .short L tp.cv stor, error := none }
    | C_BUILTIN_INT => { stor := write_int P .int L tp.cv stor, error := none }
    | C_BUILTIN_LONG => { stor := write_int P .long L tp.cv stor, error := none }
    | C_BUILTIN_LLONG => { stor := write_int P .long_long L tp.cv stor, error := none }
    | C_BUILTIN_INT8 => { stor := write_int P .int8_t L tp.cv stor, error := none }
    | C_BUILTIN_INT16 => { stor := write_int P .int16_t L tp.cv stor, error := none }
    | C_BUILTIN_INT32 => { stor := write_int P .int32_t L tp.cv stor, error := none }
    | C_BUILTIN_INT64 => { stor := write_int P .int64_t L tp.cv stor, error := none }
    | _ => luaL_error stor "bad conversion"
  | .string tostring =>
    match tp.type with
    | C_BUILTIN_PTR =>
      { stor := store P.sizeof_pointer (tostring % 2 ^ (8 * P.sizeof_pointer)) stor,
        error := none }
    | _ => luaL_error stor "bad conversion"
  | .userdata _ =>
    { stor := store P.sizeof_pointer (lua_touserdata L % 2 ^ (8 * P.sizeof_pointer)) stor,
      error := none }
  | .lightuserdata _ =>
    { stor := store P.sizeof_pointer (lua_touserdata L % 2 ^ (8 * P.sizeof_pointer)) stor,
      error := none }
  | .thread => luaL_error stor "bad conversion"
  | .table => luaL_error stor "table initializers not yet implemented"
  | .function => luaL_error stor "callbacks not yet implemented"
  | .other typename => luaL_error stor ("'" ++ typename ++ "' cannot be used in FFI")

/-! ## Vocabulary of the specification -/

/-- The native storage type of each fixed-size integer kind, as the
specification uses the word: the C type of the same name (the one
`write_int` is instantiated at for the kind). -/
def native_type : c_builtin → Option ctype
  | C_BUILTIN_CHAR => some .char
  | C_BUILTIN_SHORT => some .short
  | C_BUILTIN_INT => some .int
  | C_BUILTIN_LONG => some .long
  | C_BUILTIN_LLONG => some .long_long
  | C_BUILTIN_INT8 => some .int8_t
  | C_BUILTIN_INT16 => some .int16_t
  | C_BUILTIN_INT32 => some .int32_t
  | C_BUILTIN_INT64 => some .int64_t
  | _ => none

/-- The kinds the specification lists as recognised by the ABI type
resolver. -/
def recognised : c_builtin → Bool
  | C_BUILTIN_PTR => true
  | C_BUILTIN_CHAR => true
  | C_BUILTIN_SHORT => true
  | C_BUILTIN_INT => true
  | C_BUILTIN_LONG => true
  | C_BUILTIN_LLONG => true
  | C_BUILTIN_INT8 => true
  | C_BUILTIN_INT16 => true
  | C_BUILTIN_INT32 => true
  | C_BUILTIN_INT64 => true
  | C_BUILTIN_SIZE => true
  | C_BUILTIN_INTPTR => true
  | C_BUILTIN_TIME => true
  | C_BUILTIN_FLOAT => true
  | C_BUILTIN_DOUBLE => true
  | C_BUILTIN_LDOUBLE => true
  | C_BUILTIN_BOOL => true
  | _ => false

/-- The value/target pairs the specification lists as valid for a decode. -/
def decode_valid : LuaValue → c_builtin → Bool
  | .nil, C_BUILTIN_PTR => true
  | .boolean _, C_BUILTIN_BOOL => true
  | .number _ _ _, C_BUILTIN_FLOAT => true
  | .number _ _ _, C_BUILTIN_DOUBLE => true
  | .number _ _ _, C_BUILTIN_CHAR => true
  | .number _ _ _, C_BUILTIN_SHORT => true
  | .number _ _ _, C_BUILTIN_INT => true
  | .number _ _ _, C_BUILTIN_LONG => true
  | .number _ _ _, C_BUILTIN_LLONG => true
  | .number _ _ _, C_BUILTIN_INT8 => true
  | .number _ _ _, C_BUILTIN_INT16 => true
  | .number _ _ _, C_BUILTIN_INT32 => true
  | .number _ _ _, C_BUILTIN_INT64 => true
  | .string _, C_BUILTIN_PTR => true
  | .userdata _, _ => true
  | .lightuserdata _, _ => true
  | _, _ => false

/-- Whether a dynamic value is an opaque native handle (full or light
userdata). -/
def is_handle : LuaValue → Bool
  | .userdata _ => true
  | .lightuserdata _ => true
  | _ => false

/-- The integer kinds that both the decoder and the encoder implement, with
the storage type the decoder writes. -/
def round_trip_type : c_builtin → Option ctype
  | C_BUILTIN_CHAR => some .char
  | C_BUILTIN_SHORT => some .short
  | C_BUILTIN_INT => some .int
  | C_BUILTIN_INT8 => some .int8_t
  | C_BUILTIN_INT16 => some .int16_t
  | C_BUILTIN_INT32 => some .int32_t
  | _ => none

/-- The value `v` truncated to the native width of `T` and read with the
signedness the classifier resolves for `T` and the flag word. -/
def narrowed (P : Platform) (T : ctype) (cv : Nat) (v : Int) : Int :=
  if use_ffi_signed P T cv then to_signed (sizeof P T) v else to_unsigned (sizeof P T) v

/-- Decode of the value `L` into a zero-filled cell of the size of `ffi_arg`,
then encode of that cell under the same type descriptor. -/
def round_trip (P : Platform) (tp : c_type) (L : LuaValue) : Pushed :=
  lua_push_cdata P tp
    (load P.sizeof_ffi_arg
      (lua_check_cdata P L tp (List.replicate P.sizeof_ffi_arg 0)).stor)

/-- The integer that the bit pattern `bits` of a `w`-byte object stands for
when it is read as a signed (two's complement) or as an unsigned integer. -/
def read_int (signed : Bool) (w : Nat) (bits : Nat) : Int :=
  if signed then to_signed w bits else to_unsigned w bits

/-- The test `lua_push_cdata` makes to choose between its signed
reinterpretation arm and its unsigned arm, for the kinds whose case has the
two arms: `use_ffi_signed<char>` for char, `use_ffi_signed<int>` for short,
int, int8, int16 and int32. -/
def push_takes_signed (P : Platform) (tp : c_type) : Option Bool :=
  match tp.type with
  | C_BUILTIN_CHAR => some (use_ffi_signed P .char tp.cv)
  | C_BUILTIN_SHORT => some (use_ffi_signed P .int tp.cv)
  | C_BUILTIN_INT => some (use_ffi_signed P .int tp.cv)
  | C_BUILTIN_INT8 => some (use_ffi_signed P .int tp.cv)
  | C_BUILTIN_INT16 => some (use_ffi_signed P .int tp.cv)
  | C_BUILTIN_INT32 => some (use_ffi_signed P .int tp.cv)
  | _ => none

/-! ## Auxiliary facts -/

theorem use_ffi_signed_of_signed (P : Platform) (T : ctype) (cv : Nat)
    (h : cv &&& C_CV_SIGNED ≠ 0) : use_ffi_signed P T cv = true := by
  simp [use_ffi_signed, h]

theorem use_ffi_signed_of_unsigned (P : Platform) (T : ctype) (cv : Nat)
    (hs : cv &&& C_CV_SIGNED = 0) (hu : cv &&& C_CV_UNSIGNED ≠ 0) :
    use_ffi_signed P T cv = false := by
  simp [use_ffi_signed, hs, hu]

theorem use_ffi_signed_of_default (P : Platform) (T : ctype) (cv : Nat)
    (hs : cv &&& C_CV_SIGNED = 0) (hu : cv &&& C_CV_UNSIGNED = 0) :
    use_ffi_signed P T cv = is_signed P T := by
  simp [use_ffi_signed, hs, hu]

/-- The classifier gives the same answer for two storage types of the same
default signedness. -/
theorem use_ffi_signed_congr (P : Platform) (T U : ctype) (cv : Nat)
    (h : is_signed P T = is_signed P U) :
    use_ffi_signed P T cv = use_ffi_signed P U cv := by
  simp [use_ffi_signed, h]

/-- A conversion to a signed type gives zero exactly when the value is a
multiple of the modulus of the type. -/
theorem to_signed_eq_zero_iff (n : Nat) (v : Int) :
    to_signed n v = 0 ↔ v % 2 ^ (8 * n) = 0 := by
  have hpos : (0 : Int) < 2 ^ (8 * n) := by positivity
  have hhalf : (0 : Int) < 2 ^ (8 * n - 1) := by positivity
  have hlt : v % 2 ^ (8 * n) < 2 ^ (8 * n) := Int.emod_lt_of_pos v hpos
  unfold to_signed
  simp only
  split
  · rfl
  · constructor <;> intro h <;> omega

theorem le_bytes_succ (n x : Nat) :
    le_bytes (n + 1) x = x % 256 :: le_bytes n (x / 256) := by
  unfold le_bytes
  rw [List.range_succ_eq_map, List.map_cons, List.map_map]
  simp only [pow_zero, Nat.div_one, List.cons.injEq, true_and]
  apply List.map_congr_left
  intro i _
  simp only [Function.comp, Nat.succ_eq_add_one, pow_succ, Nat.div_div_eq_div_mul]
  rw [Nat.mul_comm]

theorem length_le_bytes (n x : Nat) : (le_bytes n x).length = n := by
  simp [le_bytes]

theorem foldr_le_bytes (n x acc : Nat) :
    (le_bytes n x).foldr (fun b a => b + 256 * a) acc = x % 256 ^ n + 256 ^ n * acc := by
  induction n generalizing x with
  | zero => simp [le_bytes, Nat.mod_one]
  | succ n ih =>
    rw [le_bytes_succ, List.foldr_cons, ih, pow_succ, Nat.mul_comm (256 ^ n) 256,
      Nat.mod_mul]
    ring

theorem foldr_replicate_zero (k : Nat) :
    (List.replicate k 0).foldr (fun b a => b + 256 * a) 0 = 0 := by
  induction k with
  | zero => rfl
  | succ k ih => simp [List.replicate_succ, ih]

theorem load_store (n x : Nat) (stor : List Nat) :
    load n (store n x stor) = x % 256 ^ n := by
  unfold load store
  rw [List.take_left' (length_le_bytes n x), foldr_le_bytes]
  simp

theorem load_store_zero_cell (m n x : Nat) (h : n ≤ m) :
    load m (store n x (List.replicate m 0)) = x % 256 ^ n := by
  unfold load store
  rw [List.take_of_length_le (by simp [length_le_bytes]; omega), List.foldr_append,
    List.drop_replicate, foldr_replicate_zero, foldr_le_bytes]
  simp

theorem store_getElem?_of_le (n x : Nat) (stor : List Nat) (i : Nat) (h : n ≤ i) :
    (store n x stor)[i]? = stor[i]? := by
  unfold store
  rw [List.getElem?_append_right (by rw [length_le_bytes]; exact h), length_le_bytes,
    List.getElem?_drop]
  congr 1
  omega

theorem to_signed_emod (n : Nat) (v : Int) :
    to_signed n v % 2 ^ (8 * n) = v % 2 ^ (8 * n) := by
  unfold to_signed
  simp only
  split
  · exact Int.emod_emod_of_dvd v (dvd_refl _)
  · rw [Int.sub_emod, Int.emod_self, sub_zero, Int.emod_emod_of_dvd _ (dvd_refl _),
      Int.emod_emod_of_dvd _ (dvd_refl _)]

theorem to_signed_of_nonneg_of_lt (n : Nat) (x : Int) (h0 : 0 ≤ x)
    (h : x < 2 ^ (8 * n - 1)) : to_signed n x = x := by
  have hle : (2 : Int) ^ (8 * n - 1) ≤ 2 ^ (8 * n) :=
    pow_le_pow_right₀ (by norm_num) (Nat.sub_le _ _)
  have hm : x % 2 ^ (8 * n) = x := Int.emod_eq_of_lt h0 (lt_of_lt_of_le h hle)
  unfold to_signed
  simp only [hm, if_pos h]

theorem write_int_eq (P : Platform) (T : ctype) (L : LuaValue) (cv : Nat) (stor : List Nat) :
    write_int P T L cv stor =
      store (sizeof P T) (lua_tointeger L % 2 ^ (8 * sizeof P T)).toNat stor := by
  unfold write_int bit_pattern to_unsigned
  simp only
  split
  · rw [to_signed_emod]
  · rw [Int.emod_emod_of_dvd _ (dvd_refl _)]

theorem toNat_emod_lt (n : Nat) (v : Int) : (v % 2 ^ (8 * n)).toNat < 256 ^ n := by
  have hpos : (0 : Int) < 2 ^ (8 * n) := by positivity
  have h0 : 0 ≤ v % 2 ^ (8 * n) := Int.emod_nonneg v (ne_of_gt hpos)
  have hlt : v % 2 ^ (8 * n) < 2 ^ (8 * n) := Int.emod_lt_of_pos v hpos
  have e : (256 : Nat) ^ n = 2 ^ (8 * n) := by
    rw [pow_mul]
    norm_num
  rw [e]
  zify
  rw [Int.toNat_of_nonneg h0]
  exact_mod_cast hlt

theorem load_write_int_zero_cell (P : Platform) (T : ctype) (L : LuaValue) (cv m : Nat)
    (h : sizeof P T ≤ m) :
    load m (write_int P T L cv (List.replicate m 0)) =
      (lua_tointeger L % 2 ^ (8 * sizeof P T)).toNat := by
  rw [write_int_eq, load_store_zero_cell m _ _ h]
  exact Nat.mod_eq_of_lt (toNat_emod_lt _ _)

theorem push_lp64_of_lt (cs : Bool) (x : Nat) (h : x < 2 ^ 63) :
    push_signed (lp64 cs) x = .integer x ∧ push_unsigned (lp64 cs) x = .integer x := by
  have h0 : (0 : Int) ≤ x := Int.ofNat_nonneg x
  have h1 : (x : Int) < 2 ^ (8 * 8 - 1) := by
    norm_num
    exact_mod_cast h
  have e : to_signed 8 (x : Int) = x := to_signed_of_nonneg_of_lt 8 x h0 h1
  simp only [push_signed, push_unsigned, lp64, e, and_self]

theorem lua_push_cdata_lp64_of_lt (cs : Bool) (tp : c_type) (T : ctype)
    (h : round_trip_type tp.type = some T) (x : Nat) (hx : x < 2 ^ 63) :
    lua_push_cdata (lp64 cs) tp x = .integer x := by
  obtain ⟨k, cv⟩ := tp
  have hp := push_lp64_of_lt cs x hx
  cases k <;> simp [round_trip_type] at h <;>
    simp [lua_push_cdata, hp.1, hp.2]

theorem size_int_case (P : Platform) (cv : Nat) (T : ctype) (n : Nat) :
    (INT_CASE P cv T (.sint n) (.uint n)).size P = n := by
  unfold INT_CASE
  split <;> rfl

theorem size_get_ffi_type_of_native_type (P : Platform) (tp : c_type) (T : ctype)
    (h : native_type tp.type = some T) : (get_ffi_type P tp).size P = sizeof P T := by
  obtain ⟨k, cv⟩ := tp
  cases k <;> simp [native_type] at h <;> subst h <;>
    simp only [get_ffi_type, ffi_type_schar, ffi_type_uchar, ffi_type_sshort,
      ffi_type_ushort, ffi_type_sint, ffi_type_uint, ffi_type_slong, ffi_type_ulong,
      ffi_type_sint8, ffi_type_uint8, ffi_type_sint16, ffi_type_uint16, ffi_type_sint32,
      ffi_type_uint32, ffi_type_sint64, ffi_type_uint64, size_int_case, sizeof]

theorem lua_check_cdata_number_stor (P : Platform) (tp : c_type) (T : ctype)
    (v : Int) (d f : Nat) (stor : List Nat) (h : native_type tp.type = some T) :
    (lua_check_cdata P (.number v d f) tp stor).stor =
      store (sizeof P T) (v % 2 ^ (8 * sizeof P T)).toNat stor := by
  obtain ⟨k, cv⟩ := tp
  cases k <;> simp [native_type] at h <;> subst h <;>
    simp only [lua_check_cdata, write_int_eq, lua_tointeger]

theorem to_signed_congr (n : Nat) (a b : Int) (h : a % 2 ^ (8 * n) = b % 2 ^ (8 * n)) :
    to_signed n a = to_signed n b := by
  unfold to_signed
  simp only [h]

theorem to_signed_idem (n : Nat) (v : Int) : to_signed n (to_signed n v) = to_signed n v :=
  to_signed_congr n _ _ (to_signed_emod n v)

theorem emod_toNat_cast (n : Nat) (v : Int) :
    (((v % 2 ^ (8 * n)).toNat : Nat) : Int) = v % 2 ^ (8 * n) := by
  have hpos : (0 : Int) < 2 ^ (8 * n) := by positivity
  exact Int.toNat_of_nonneg (Int.emod_nonneg v (ne_of_gt hpos))

theorem read_int_load_store (s : Bool) (n : Nat) (v : Int) (stor : List Nat) :
    read_int s n (load n (store n (v % 2 ^ (8 * n)).toNat stor)) =
      if s then to_signed n v else to_unsigned n v := by
  rw [load_store, Nat.mod_eq_of_lt (toNat_emod_lt n v)]
  unfold read_int
  rw [emod_toNat_cast]
  cases s
  · simp only [Bool.false_eq_true, if_false, to_unsigned]
    exact Int.emod_emod_of_dvd v (dvd_refl _)
  · simp only [if_true]
    exact to_signed_congr n _ _ (Int.emod_emod_of_dvd v (dvd_refl _))

theorem lua_check_cdata_number_error (P : Platform) (tp : c_type) (T : ctype)
    (v : Int) (d f : Nat) (stor : List Nat) (h : native_type tp.type = some T) :
    (lua_check_cdata P (.number v d f) tp stor).error = none := by
  obtain ⟨k, cv⟩ := tp
  cases k <;> simp [native_type] at h <;> simp [lua_check_cdata]

theorem round_trip_lp64 (cs : Bool) (tp : c_type) (T : ctype) (v : Int) (d f : Nat)
    (h : round_trip_type tp.type = some T) :
    round_trip (lp64 cs) tp (.number v d f) =
      .integer (v % 2 ^ (8 * sizeof (lp64 cs) T)) := by
  have hw : sizeof (lp64 cs) T ≤ 4 := by
    obtain ⟨k, cv⟩ := tp
    cases k <;> simp [round_trip_type] at h <;> subst h <;> simp [sizeof, lp64]
  have hdec : (lua_check_cdata (lp64 cs) (.number v d f) tp (List.replicate 8 0)).stor =
      write_int (lp64 cs) T (.number v d f) tp.cv (List.replicate 8 0) := by
    obtain ⟨k, cv⟩ := tp
    cases k <;> simp [round_trip_type] at h <;> subst h <;> simp [lua_check_cdata]
  have hlt : (v % 2 ^ (8 * sizeof (lp64 cs) T)).toNat < 2 ^ 63 := by
    have := toNat_emod_lt (sizeof (lp64 cs) T) v
    have : (256 : Nat) ^ sizeof (lp64 cs) T ≤ 256 ^ 4 := Nat.pow_le_pow_right (by norm_num) hw
    omega
  unfold round_trip
  have e8 : (lp64 cs).sizeof_ffi_arg = 8 := rfl
  rw [e8, hdec, load_write_int_zero_cell _ _ _ _ _ (by omega)]
  simp only [lua_tointeger]
  rw [lua_push_cdata_lp64_of_lt cs tp T h _ hlt, emod_toNat_cast]

theorem native_type_of_round_trip_type (k : c_builtin) (T : ctype)
    (h : round_trip_type k = some T) : native_type k = some T := by
  cases k <;> simp [round_trip_type] at h <;> subst h <;> rfl

theorem is_sint_int_case (P : Platform) (cv : Nat) (T : ctype) (n m : Nat) :
    (INT_CASE P cv T (.sint n) (.uint m)).is_sint = use_ffi_signed P T cv := by
  unfold INT_CASE
  cases use_ffi_signed P T cv <;> rfl

theorem is_sint_get_ffi_type_of_round_trip_type (P : Platform) (tp : c_type) (T : ctype)
    (h : round_trip_type tp.type = some T) :
    (get_ffi_type P tp).is_sint = use_ffi_signed P T tp.cv := by
  obtain ⟨k, cv⟩ := tp
  cases k <;> simp [round_trip_type] at h <;> subst h <;>
    simp only [get_ffi_type, ffi_type_schar, ffi_type_uchar, ffi_type_sshort,
      ffi_type_ushort, ffi_type_sint, ffi_type_uint, ffi_type_sint8, ffi_type_uint8,
      ffi_type_sint16, ffi_type_uint16, ffi_type_sint32, ffi_type_uint32, is_sint_int_case]

theorem push_takes_signed_of_round_trip_type (P : Platform) (tp : c_type) (T : ctype)
    (h : round_trip_type tp.type = some T) :
    push_takes_signed P tp = some (use_ffi_signed P T tp.cv) := by
  obtain ⟨k, cv⟩ := tp
  cases k <;> simp [round_trip_type] at h <;> subst h <;>
    simp only [push_takes_signed, Option.some.injEq] <;>
    exact use_ffi_signed_congr P _ _ cv rfl

theorem lua_push_cdata_of_push_takes_signed (P : Platform) (tp : c_type) (b : Bool)
    (value : Nat) (h : push_takes_signed P tp = some b) :
    lua_push_cdata P tp value = if b then push_signed P value else push_unsigned P value := by
  obtain ⟨k, cv⟩ := tp
  cases k <;> simp [push_takes_signed] at h <;> subst h <;> simp only [lua_push_cdata]

theorem push_of_64_bits (P : Platform) (value : Nat) (hA : P.sizeof_ffi_arg = 8)
    (hL : P.sizeof_lua_Integer = 8) :
    push_signed P value = .integer (to_signed 8 value) ∧
    push_unsigned P value = .integer (to_signed 8 value) := by
  simp only [push_signed, push_unsigned, hA, hL, to_signed_idem, and_self]

theorem lua_push_cdata_of_64_bits (P : Platform) (tp : c_type) (T : ctype) (value : Nat)
    (h : round_trip_type tp.type = some T) (hA : P.sizeof_ffi_arg = 8)
    (hL : P.sizeof_lua_Integer = 8) :
    lua_push_cdata P tp value = .integer (to_signed 8 value) := by
  have hp := push_of_64_bits P value hA hL
  rw [lua_push_cdata_of_push_takes_signed P tp _ value
    (push_takes_signed_of_round_trip_type P tp T h), hp.1, hp.2]
  simp

/-! ## The Signedness Classifier and the ABI Type Resolver -/

/-- C9, as stated, fails when both qualifier flags are set: in the flag word
with the explicit-signed and the explicit-unsigned bit, the explicit-unsigned
flag is set and `use_ffi_signed` still returns true, because the
explicit-signed test comes first. -/
theorem use_ffi_signed_both_flags_counterexample :
    ((C_CV_SIGNED ||| C_CV_UNSIGNED) &&& C_CV_SIGNED ≠ 0) ∧
    ((C_CV_SIGNED ||| C_CV_UNSIGNED) &&& C_CV_UNSIGNED ≠ 0) ∧
    use_ffi_signed (lp64 false) .char (C_CV_SIGNED ||| C_CV_UNSIGNED) = true ∧
    ¬ ((C_CV_SIGNED ||| C_CV_UNSIGNED) &&& C_CV_UNSIGNED ≠ 0 →
      use_ffi_signed (lp64 false) .char (C_CV_SIGNED ||| C_CV_UNSIGNED) = false) := by
  decide

/-- C9 (amended): for every storage type and every flag word, if the
explicit-signed flag is set `use_ffi_signed` returns true; if the
explicit-unsigned flag is set and the explicit-signed flag is not, it
returns false; with neither flag set it returns the platform default
signedness of the storage type. -/
theorem use_ffi_signed_resolution (P : Platform) (T : ctype) (cv : Nat) :
    (cv &&& C_CV_SIGNED ≠ 0 → use_ffi_signed P T cv = true) ∧
    (cv &&& C_CV_UNSIGNED ≠ 0 → cv &&& C_CV_SIGNED = 0 →
      use_ffi_signed P T cv = false) ∧
    (cv &&& C_CV_SIGNED = 0 → cv &&& C_CV_UNSIGNED = 0 →
      use_ffi_signed P T cv = is_signed P T) :=
  ⟨use_ffi_signed_of_signed P T cv,
   fun hu hs => use_ffi_signed_of_unsigned P T cv hs hu,
   use_ffi_signed_of_default P T cv⟩

/-- Instances of C9 (amended): explicit-signed on unsigned-by-default `char`,
explicit-unsigned on `int`, and no flag on `int`. -/
theorem use_ffi_signed_resolution_witness :
    use_ffi_signed (lp64 false) .char C_CV_SIGNED = true ∧
    use_ffi_signed (lp64 false) .int C_CV_UNSIGNED = false ∧
    use_ffi_signed (lp64 false) .int 0 = is_signed (lp64 false) .int :=
  ⟨(use_ffi_signed_resolution (lp64 false) .char C_CV_SIGNED).1 (by decide),
   (use_ffi_signed_resolution (lp64 false) .int C_CV_UNSIGNED).2.1 (by decide) (by decide),
   (use_ffi_signed_resolution (lp64 false) .int 0).2.2 (by decide) (by decide)⟩

/-- C10: `get_ffi_type` returns an ABI descriptor for every type descriptor,
and for every kind outside the recognised set, with any flag word, it
returns the default signed-int descriptor. -/
theorem get_ffi_type_total_with_fallback (P : Platform) (tp : c_type) :
    (∃ d : ffi_type, get_ffi_type P tp = d) ∧
    (recognised tp.type = false → get_ffi_type P tp = ffi_type_sint P) := by
  refine ⟨⟨_, rfl⟩, ?_⟩
  obtain ⟨k, cv⟩ := tp
  cases k <;> simp [recognised, get_ffi_type]

/-- An instance of C10: an unrecognised kind with the explicit-unsigned flag
set resolves to the 4-byte signed integer descriptor on LP64. -/
theorem get_ffi_type_total_with_fallback_witness :
    get_ffi_type (lp64 true) ⟨.other 0, C_CV_UNSIGNED⟩ = .sint 4 :=
  (get_ffi_type_total_with_fallback (lp64 true) ⟨.other 0, C_CV_UNSIGNED⟩).2 (by decide)

/-- C8: for every fixed-size integer kind (char, short, int, long, long-long,
int8, int16, int32, int64) and every flag word, `get_ffi_type` returns an
integer descriptor whose byte width is the native storage width of the kind
and which is signed exactly when `use_ffi_signed` for the kind's storage type
and the flag word returns true. -/
theorem get_ffi_type_fixed_size_integer (P : Platform) (tp : c_type) (T : ctype)
    (h : native_type tp.type = some T) :
    get_ffi_type P tp =
      if use_ffi_signed P T tp.cv then .sint (sizeof P T) else .uint (sizeof P T) := by
  obtain ⟨k, cv⟩ := tp
  cases k <;> simp [native_type] at h <;> subst h <;>
    simp [get_ffi_type, INT_CASE, sizeof, ffi_type_schar, ffi_type_uchar, ffi_type_sshort,
      ffi_type_ushort, ffi_type_sint, ffi_type_uint, ffi_type_slong, ffi_type_ulong,
      ffi_type_sint8, ffi_type_uint8, ffi_type_sint16, ffi_type_uint16, ffi_type_sint32,
      ffi_type_uint32, ffi_type_sint64, ffi_type_uint64]
  exact congrArg (fun b => if b = true then ffi_type.sint 8 else ffi_type.uint 8)
    (use_ffi_signed_congr P .int64_t .long_long cv rfl)

/-- An instance of C8: `unsigned long long` resolves to the unsigned 8-byte
descriptor. -/
theorem get_ffi_type_fixed_size_integer_witness :
    get_ffi_type (lp64 true) ⟨C_BUILTIN_LLONG, C_CV_UNSIGNED⟩ = .uint 8 :=
  get_ffi_type_fixed_size_integer (lp64 true) ⟨C_BUILTIN_LLONG, C_CV_UNSIGNED⟩ .long_long rfl

/-- C5 (failing input): for the pointer-width kind with no qualifier flag and
an 8-byte `intptr_t`, the classifier `use_ffi_signed` returns true for the
signed underlying type, yet `get_ffi_type` returns the unsigned 8-byte
descriptor: `INT_CASE64` tests the explicit-signed flag alone. -/
theorem get_ffi_type_intptr_default_unsigned :
    use_ffi_signed (lp64 true) .intptr_t 0 = true ∧
    sizeof (lp64 true) .intptr_t = 8 ∧
    get_ffi_type (lp64 true) ⟨C_BUILTIN_INTPTR, 0⟩ = ffi_type_uint64 ∧
    get_ffi_type (lp64 true) ⟨C_BUILTIN_INTPTR, 0⟩ ≠ ffi_type_sint64 := by
  decide

/-! ## The Value Encoder -/

/-- C6 (failing input): for the long-long kind, every flag word and every raw
value, `lua_push_cdata` yields the generic sentinel "value too big" and not
the "NYI" sentinel, while the other wide kinds (long, int64, size-width,
pointer-width, time) yield "NYI": the long-long kind is missing from the
case list. -/
theorem lua_push_cdata_llong_not_nyi (P : Platform) (cv value : Nat) :
    lua_push_cdata P ⟨C_BUILTIN_LLONG, cv⟩ value = .string "value too big" ∧
    lua_push_cdata P ⟨C_BUILTIN_LLONG, cv⟩ value ≠ .string "NYI" ∧
    lua_push_cdata P ⟨C_BUILTIN_LONG, cv⟩ value = .string "NYI" ∧
    lua_push_cdata P ⟨C_BUILTIN_INT64, cv⟩ value = .string "NYI" ∧
    lua_push_cdata P ⟨C_BUILTIN_SIZE, cv⟩ value = .string "NYI" ∧
    lua_push_cdata P ⟨C_BUILTIN_INTPTR, cv⟩ value = .string "NYI" ∧
    lua_push_cdata P ⟨C_BUILTIN_TIME, cv⟩ value = .string "NYI" := by
  refine ⟨rfl, ?_, rfl, rfl, rfl, rfl, rfl⟩
  simp [lua_push_cdata]

/-- C7, as stated, fails: the raw cell 256 has a zero lowest byte and the
boolean kind still encodes it as true (as it does every cell whose low 32
bits are not all zero), while the cell 2 ^ 32 encodes as false. -/
theorem lua_push_cdata_bool_counterexample :
    256 % 2 ^ 8 = 0 ∧
    lua_push_cdata (lp64 true) ⟨C_BUILTIN_BOOL, 0⟩ 256 = .boolean true ∧
    lua_push_cdata (lp64 true) ⟨C_BUILTIN_BOOL, 0⟩ (2 ^ 32) = .boolean false := by
  decide

/-- C7 (amended): for the boolean kind and every raw cell value,
`lua_push_cdata` yields the boolean true if and only if the low
`sizeof(int)` bytes of the cell (its low 32 bits where `int` has 4 bytes)
are not all zero; the bits above them do not influence the result. -/
theorem lua_push_cdata_bool (P : Platform) (cv value : Nat) :
    (lua_push_cdata P ⟨C_BUILTIN_BOOL, cv⟩ value = .boolean true ↔
      value % 2 ^ (8 * P.sizeof_int) ≠ 0) ∧
    (lua_push_cdata P ⟨C_BUILTIN_BOOL, cv⟩ value = .boolean false ↔
      value % 2 ^ (8 * P.sizeof_int) = 0) ∧
    (∀ other : Nat, other % 2 ^ (8 * P.sizeof_int) = value % 2 ^ (8 * P.sizeof_int) →
      lua_push_cdata P ⟨C_BUILTIN_BOOL, cv⟩ other =
        lua_push_cdata P ⟨C_BUILTIN_BOOL, cv⟩ value) := by
  have key : ∀ x : Nat, to_signed P.sizeof_int (x : Int) = 0 ↔ x % 2 ^ (8 * P.sizeof_int) = 0 := by
    intro x
    rw [to_signed_eq_zero_iff]
    exact_mod_cast Iff.rfl
  refine ⟨?_, ?_, ?_⟩
  · simp [lua_push_cdata, key]
  · simp [lua_push_cdata, key]
  · intro other h
    have h1 := key other
    have h2 := key value
    simp only [lua_push_cdata, Pushed.boolean.injEq]
    rw [h] at h1
    by_cases hz : value % 2 ^ (8 * P.sizeof_int) = 0
    · rw [h1.2 hz, h2.2 hz]
    · have a1 : to_signed P.sizeof_int (other : Int) ≠ 0 := fun c => hz (h1.1 c)
      have a2 : to_signed P.sizeof_int (value : Int) ≠ 0 := fun c => hz (h2.1 c)
      rw [bne_iff_ne.mpr a1, bne_iff_ne.mpr a2]

/-- An instance of C7 (amended): the cells 2 ^ 32 + 1 and 1 agree on their
low 32 bits and encode to the same boolean. -/
theorem lua_push_cdata_bool_witness :
    lua_push_cdata (lp64 true) ⟨C_BUILTIN_BOOL, 0⟩ (2 ^ 32 + 1) =
      lua_push_cdata (lp64 true) ⟨C_BUILTIN_BOOL, 0⟩ 1 :=
  (lua_push_cdata_bool (lp64 true) 0 1).2.2 (2 ^ 32 + 1) (by decide)

/-! ## The Value Decoder -/

/-- C3: for every type descriptor and every content of the storage cell,
decoding a table raises "table initializers not yet implemented", decoding a
callable raises "callbacks not yet implemented", and the storage cell is left
as it was. -/
theorem lua_check_cdata_table_function (P : Platform) (tp : c_type) (stor : List Nat) :
    lua_check_cdata P .table tp stor =
      { stor := stor, error := some "table initializers not yet implemented" } ∧
    lua_check_cdata P .function tp stor =
      { stor := stor, error := some "callbacks not yet implemented" } :=
  ⟨rfl, rfl⟩

/-- C2: for every dynamic value, every target kind and every flag word,
`lua_check_cdata` succeeds exactly on the valid value/target pairs: nil into
pointer; boolean into boolean; number into float, double, char, short, int,
long, long-long, int8, int16, int32 or int64; string into pointer; a full or
light userdata into any target. On every other pair it raises an error. -/
theorem lua_check_cdata_succeeds_iff (P : Platform) (L : LuaValue) (tp : c_type)
    (stor : List Nat) :
    ((lua_check_cdata P L tp stor).error = none ↔ decode_valid L tp.type = true) ∧
    ((∃ msg, (lua_check_cdata P L tp stor).error = some msg) ↔
      decode_valid L tp.type = false) := by
  obtain ⟨k, cv⟩ := tp
  cases L <;> cases k <;> simp [lua_check_cdata, luaL_error, decode_valid]

/-- C4, as stated, fails for an opaque native handle: on LP64 a userdata
decoded into a `char` target succeeds, the ABI descriptor of the target is
one byte wide, and the bytes of the cell at offsets 1 to 7 are overwritten
with the rest of the 8-byte pointer. -/
theorem lua_check_cdata_handle_counterexample :
    (lua_check_cdata (lp64 true) (.userdata 0x1122334455667788) ⟨C_BUILTIN_CHAR, 0⟩
      (List.replicate 8 0)).error = none ∧
    (get_ffi_type (lp64 true) ⟨C_BUILTIN_CHAR, 0⟩).size (lp64 true) = 1 ∧
    (lua_check_cdata (lp64 true) (.userdata 0x1122334455667788) ⟨C_BUILTIN_CHAR, 0⟩
      (List.replicate 8 0)).stor = [0x88, 0x77, 0x66, 0x55, 0x44, 0x33, 0x22, 0x11] ∧
    (lua_check_cdata (lp64 true) (.userdata 0x1122334455667788) ⟨C_BUILTIN_CHAR, 0⟩
      (List.replicate 8 0)).stor[1]? ≠ (List.replicate 8 0)[1]? := by
  decide

/-- C4 (amended): for every dynamic value and every type descriptor on which
`lua_check_cdata` succeeds: if the value is not an opaque native handle, no
byte of the storage cell at an offset greater than or equal to the byte width
of the ABI descriptor `get_ffi_type` returns is changed; if the value is an
opaque native handle (full or light userdata), a whole pointer is written
whatever the target, and no byte at an offset greater than or equal to the
pointer width is changed. -/
theorem lua_check_cdata_write_extent (P : Platform) (L : LuaValue) (tp : c_type)
    (stor : List Nat) (h : (lua_check_cdata P L tp stor).error = none) :
    (is_handle L = false → ∀ i : Nat, (get_ffi_type P tp).size P ≤ i →
      (lua_check_cdata P L tp stor).stor[i]? = stor[i]?) ∧
    (is_handle L = true → ∀ i : Nat, P.sizeof_pointer ≤ i →
      (lua_check_cdata P L tp stor).stor[i]? = stor[i]?) := by
  obtain ⟨k, cv⟩ := tp
  cases L with
  | nil =>
    cases k <;> simp [lua_check_cdata, luaL_error] at h
    simp only [is_handle, lua_check_cdata, get_ffi_type, ffi_type_pointer, ffi_type.size]
    exact ⟨fun _ i hi => store_getElem?_of_le _ _ _ _ hi, by simp⟩
  | boolean b =>
    cases k <;> simp [lua_check_cdata, luaL_error] at h
    simp only [is_handle, lua_check_cdata, get_ffi_type, ffi_type_uchar, ffi_type.size]
    exact ⟨fun _ i hi => store_getElem?_of_le _ _ _ _ hi, by simp⟩
  | number v d f =>
    refine ⟨fun _ i hi => ?_, by simp [is_handle]⟩
    cases hk : native_type k with
    | some T =>
      rw [lua_check_cdata_number_stor P ⟨k, cv⟩ T v d f stor hk]
      rw [size_get_ffi_type_of_native_type P ⟨k, cv⟩ T hk] at hi
      exact store_getElem?_of_le _ _ _ _ hi
    | none =>
      cases k <;> simp [native_type] at hk <;> simp [lua_check_cdata, luaL_error] at h
      · exact store_getElem?_of_le _ _ _ _ hi
      · exact store_getElem?_of_le _ _ _ _ hi
  | string p =>
    cases k <;> simp [lua_check_cdata, luaL_error] at h
    simp only [is_handle, lua_check_cdata, get_ffi_type, ffi_type_pointer, ffi_type.size]
    exact ⟨fun _ i hi => store_getElem?_of_le _ _ _ _ hi, by simp⟩
  | userdata p =>
    exact ⟨by simp [is_handle], fun _ i hi => store_getElem?_of_le _ _ _ _ hi⟩
  | lightuserdata p =>
    exact ⟨by simp [is_handle], fun _ i hi => store_getElem?_of_le _ _ _ _ hi⟩
  | thread => simp [lua_check_cdata, luaL_error] at h
  | table => simp [lua_check_cdata, luaL_error] at h
  | function => simp [lua_check_cdata, luaL_error] at h
  | other n => simp [lua_check_cdata, luaL_error] at h

/-- An instance of C4 (amended): the number 258 decoded into an unsigned
`short` target on LP64 leaves the byte at offset 2 of the cell as it was. -/
theorem lua_check_cdata_write_extent_witness :
    (lua_check_cdata (lp64 true) (.number 258 0 0) ⟨C_BUILTIN_SHORT, C_CV_UNSIGNED⟩
      [9, 9, 9, 9, 9, 9, 9, 9]).stor[2]? = [9, 9, 9, 9, 9, 9, 9, 9][2]? :=
  (lua_check_cdata_write_extent (lp64 true) (.number 258 0 0)
    ⟨C_BUILTIN_SHORT, C_CV_UNSIGNED⟩ [9, 9, 9, 9, 9, 9, 9, 9] (by decide)).1
    (by decide) 2 (by decide)

/-! ## Round trip through the decoder and the encoder -/

/-- C1, as stated, fails for negative values into signed kinds: on LP64 the
number -1 decoded into an explicitly signed int32 target, for which the
narrowed value is -1, is encoded back as 4294967295. -/
theorem round_trip_negative_counterexample :
    use_ffi_signed (lp64 true) .int32_t C_CV_SIGNED = true ∧
    narrowed (lp64 true) .int32_t C_CV_SIGNED (-1) = -1 ∧
    round_trip (lp64 true) ⟨C_BUILTIN_INT32, C_CV_SIGNED⟩
      (.number (-1) 0xBFF0000000000000 0xBF800000) = .integer 4294967295 ∧
    round_trip (lp64 true) ⟨C_BUILTIN_INT32, C_CV_SIGNED⟩
      (.number (-1) 0xBFF0000000000000 0xBF800000) ≠
        .integer (narrowed (lp64 true) .int32_t C_CV_SIGNED (-1)) := by
  decide

/-- C1 (amended): on the 64-bit little-endian platform model, for every kind
among char, short, int, int8, int16, int32 (native width `w` bytes), every
flag word and every integer `v` of a dynamic number: decoding `v` into a
zero-filled cell and encoding that cell under the same type descriptor yields
the number `v mod 2 ^ (8 * w)`, that is `v` truncated to the native width and
read as an unsigned value, whatever the resolved signedness; this equals `v`
truncated to the native width and read with the resolved signedness whenever
that reading is not negative. -/
theorem round_trip_integer (cs : Bool) (tp : c_type) (T : ctype) (v : Int) (d f : Nat)
    (h : round_trip_type tp.type = some T) :
    round_trip (lp64 cs) tp (.number v d f) =
      .integer (v % 2 ^ (8 * sizeof (lp64 cs) T)) ∧
    (0 ≤ narrowed (lp64 cs) T tp.cv v →
      round_trip (lp64 cs) tp (.number v d f) = .integer (narrowed (lp64 cs) T tp.cv v)) := by
  have hw : sizeof (lp64 cs) T ≤ 4 := by
    obtain ⟨k, cv⟩ := tp
    cases k <;> simp [round_trip_type] at h <;> subst h <;> simp [sizeof, lp64]
  have hpos : (0 : Int) < 2 ^ (8 * sizeof (lp64 cs) T) := by positivity
  have h0 : 0 ≤ v % 2 ^ (8 * sizeof (lp64 cs) T) := Int.emod_nonneg v (ne_of_gt hpos)
  have hdec : (lua_check_cdata (lp64 cs) (.number v d f) tp (List.replicate 8 0)).stor =
      write_int (lp64 cs) T (.number v d f) tp.cv (List.replicate 8 0) := by
    obtain ⟨k, cv⟩ := tp
    cases k <;> simp [round_trip_type] at h <;> subst h <;> simp [lua_check_cdata]
  have hlt : (v % 2 ^ (8 * sizeof (lp64 cs) T)).toNat < 2 ^ 63 := by
    have := toNat_emod_lt (sizeof (lp64 cs) T) v
    have : (256 : Nat) ^ sizeof (lp64 cs) T ≤ 256 ^ 4 := Nat.pow_le_pow_right (by norm_num) hw
    omega
  have main : round_trip (lp64 cs) tp (.number v d f) =
      .integer (v % 2 ^ (8 * sizeof (lp64 cs) T)) := by
    unfold round_trip
    have e8 : (lp64 cs).sizeof_ffi_arg = 8 := rfl
    rw [e8, hdec, load_write_int_zero_cell _ _ _ _ _ (by omega)]
    simp only [lua_tointeger]
    rw [lua_push_cdata_lp64_of_lt cs tp T h _ hlt, Int.toNat_of_nonneg h0]
  refine ⟨main, fun hn => ?_⟩
  rw [main]
  congr 1
  unfold narrowed to_signed to_unsigned at *
  simp only at *
  split at hn
  · split at hn
    · simp [*]
    · have := Int.emod_lt_of_pos v hpos
      omega
  · simp [*]

/-- An instance of C1 (amended): -1 through an explicitly signed int32 goes
to `-1 mod 2 ^ 32`, and 42 through a plain int32 comes back as 42. -/
theorem round_trip_integer_witness :
    round_trip (lp64 true) ⟨C_BUILTIN_INT32, C_CV_SIGNED⟩
      (.number (-1) 0xBFF0000000000000 0xBF800000) =
        .integer (-1 % 2 ^ (8 * sizeof (lp64 true) .int32_t)) ∧
    round_trip (lp64 true) ⟨C_BUILTIN_INT32, 0⟩
      (.number 42 0x4045000000000000 0x42280000) =
        .integer (narrowed (lp64 true) .int32_t 0 42) :=
  ⟨(round_trip_integer true ⟨C_BUILTIN_INT32, C_CV_SIGNED⟩ .int32_t (-1)
      0xBFF0000000000000 0xBF800000 rfl).1,
   (round_trip_integer true ⟨C_BUILTIN_INT32, 0⟩ .int32_t 42
      0x4045000000000000 0x42280000 rfl).2 (by decide)⟩

/-! ## Further properties of the ABI Type Resolver -/

/-- C14: for the size-width kind with neither qualifier flag set and every
width `w` among 1, 2, 4, 8 of `size_t`, `get_ffi_type` returns the unsigned
integer descriptor of `w` bytes. -/
theorem get_ffi_type_size_unqualified (P : Platform) (cv : Nat)
    (h : cv &&& C_CV_SIGNED = 0 ∧ cv &&& C_CV_UNSIGNED = 0)
    (hw : P.sizeof_size_t = 1 ∨ P.sizeof_size_t = 2 ∨ P.sizeof_size_t = 4 ∨
      P.sizeof_size_t = 8) :
    get_ffi_type P ⟨C_BUILTIN_SIZE, cv⟩ = .uint P.sizeof_size_t := by
  simp only [get_ffi_type, INT_CASE64, sizeof, h.1, ne_eq, not_true_eq_false, if_false,
    ffi_type_uint64, ffi_type_uint32, ffi_type_uint16, ffi_type_uint8]
  rcases hw with e | e | e | e <;> simp [e]

/-- An instance of C14: on LP64 the unqualified size-width kind resolves to
the unsigned 8-byte integer descriptor. -/
theorem get_ffi_type_size_unqualified_witness :
    get_ffi_type (lp64 true) ⟨C_BUILTIN_SIZE, 0⟩ = .uint 8 :=
  get_ffi_type_size_unqualified (lp64 true) 0 (by decide) (by decide)

/-- C17: for the time kind and every flag word, `get_ffi_type` returns the
signed 64-bit descriptor when `time_t` is 8 bytes wide and the signed 32-bit
descriptor for every other width; the flag word never changes the result. -/
theorem get_ffi_type_time (P : Platform) (cv : Nat) :
    get_ffi_type P ⟨C_BUILTIN_TIME, cv⟩ =
      (if P.sizeof_time_t = 8 then ffi_type_sint64 else ffi_type_sint32) ∧
    (∀ cv2 : Nat, get_ffi_type P ⟨C_BUILTIN_TIME, cv2⟩ = get_ffi_type P ⟨C_BUILTIN_TIME, cv⟩) :=
  ⟨rfl, fun _ => rfl⟩

/-! ## Further properties of the Value Decoder -/

/-- C11: decoding nil into a pointer target, with any flag word, succeeds and
the pointer-wide start of the storage cell then holds the null pointer;
decoding nil into any other target kind raises "bad conversion" and leaves
the storage cell as it was. -/
theorem lua_check_cdata_nil (P : Platform) (tp : c_type) (stor : List Nat) :
    (tp.type = C_BUILTIN_PTR →
      (lua_check_cdata P .nil tp stor).error = none ∧
      (lua_check_cdata P .nil tp stor).stor = store P.sizeof_pointer 0 stor ∧
      load P.sizeof_pointer (lua_check_cdata P .nil tp stor).stor = 0) ∧
    (tp.type ≠ C_BUILTIN_PTR →
      lua_check_cdata P .nil tp stor = { stor := stor, error := some "bad conversion" }) := by
  obtain ⟨k, cv⟩ := tp
  constructor
  · intro h
    simp only at h
    subst h
    refine ⟨rfl, rfl, ?_⟩
    show load P.sizeof_pointer (store P.sizeof_pointer 0 stor) = 0
    rw [load_store]
    exact Nat.zero_mod _
  · intro h
    cases k <;> first | rfl | exact absurd rfl h

/-- Instances of C11: nil into a pointer cell on LP64 leaves the null
pointer, nil into an int32 target raises the conversion error. -/
theorem lua_check_cdata_nil_witness :
    load 8 (lua_check_cdata (lp64 true) .nil ⟨C_BUILTIN_PTR, 0⟩
      [1, 2, 3, 4, 5, 6, 7, 8]).stor = 0 ∧
    lua_check_cdata (lp64 true) .nil ⟨C_BUILTIN_INT32, 0⟩ [1, 2, 3, 4, 5, 6, 7, 8] =
      { stor := [1, 2, 3, 4, 5, 6, 7, 8], error := some "bad conversion" } :=
  ⟨((lua_check_cdata_nil (lp64 true) ⟨C_BUILTIN_PTR, 0⟩ [1, 2, 3, 4, 5, 6, 7, 8]).1 rfl).2.2,
   (lua_check_cdata_nil (lp64 true) ⟨C_BUILTIN_INT32, 0⟩ [1, 2, 3, 4, 5, 6, 7, 8]).2
     (by decide)⟩

/-- C12: for every integer kind among char, short, int, long, long-long,
int8, int16, int32, int64 (native width `w` bytes), every flag word and every
integer `v` of the dynamic number, `lua_check_cdata` succeeds and the first
`w` bytes of the storage cell, read as a `w`-byte integer of the signedness
the classifier resolves, hold `v` wrapped modulo `2 ^ (8 * w)` into the
signed or the unsigned range. -/
theorem lua_check_cdata_integer_narrowing (P : Platform) (tp : c_type) (T : ctype)
    (v : Int) (d f : Nat) (stor : List Nat) (h : native_type tp.type = some T) :
    (lua_check_cdata P (.number v d f) tp stor).error = none ∧
    read_int (use_ffi_signed P T tp.cv) (sizeof P T)
        (load (sizeof P T) (lua_check_cdata P (.number v d f) tp stor).stor) =
      narrowed P T tp.cv v := by
  refine ⟨lua_check_cdata_number_error P tp T v d f stor h, ?_⟩
  rw [lua_check_cdata_number_stor P tp T v d f stor h, read_int_load_store]
  rfl

/-- An instance of C12: -1 decoded into an explicitly signed int32 target on
LP64 reads back from the first four bytes as the narrowed value. -/
theorem lua_check_cdata_integer_narrowing_witness :
    read_int (use_ffi_signed (lp64 true) .int32_t C_CV_SIGNED) (sizeof (lp64 true) .int32_t)
        (load (sizeof (lp64 true) .int32_t)
          (lua_check_cdata (lp64 true) (.number (-1) 0xBFF0000000000000 0xBF800000)
            ⟨C_BUILTIN_INT32, C_CV_SIGNED⟩ [9, 9, 9, 9, 9, 9, 9, 9]).stor) =
      narrowed (lp64 true) .int32_t C_CV_SIGNED (-1) :=
  (lua_check_cdata_integer_narrowing (lp64 true) ⟨C_BUILTIN_INT32, C_CV_SIGNED⟩ .int32_t (-1)
    0xBFF0000000000000 0xBF800000 [9, 9, 9, 9, 9, 9, 9, 9] rfl).2

/-! ## Further properties of the Value Encoder -/

/-- C13 (failing input): for the float kind `lua_push_cdata` reinterprets all
64 bits of the cell as a binary64 value, as it does for the double kind. The
cell 0x3F800000, whose low 32 bits are the binary32 pattern of 1.0, encodes
to the binary64 pattern 0x000000003F800000 and not to that of 1.0
(0x3FF0000000000000), and a cell that agrees with it on the low 32 bits
encodes to a different number. -/
theorem lua_push_cdata_float_reads_double :
    0x3F800000 % 2 ^ 32 = (2 ^ 32 + 0x3F800000) % 2 ^ 32 ∧
    lua_push_cdata (lp64 true) ⟨C_BUILTIN_FLOAT, 0⟩ 0x3F800000 = .number 0x3F800000 ∧
    lua_push_cdata (lp64 true) ⟨C_BUILTIN_FLOAT, 0⟩ (2 ^ 32 + 0x3F800000) =
      .number 0x13F800000 ∧
    lua_push_cdata (lp64 true) ⟨C_BUILTIN_FLOAT, 0⟩ 0x3F800000 ≠
      lua_push_cdata (lp64 true) ⟨C_BUILTIN_FLOAT, 0⟩ (2 ^ 32 + 0x3F800000) ∧
    lua_push_cdata (lp64 true) ⟨C_BUILTIN_FLOAT, 0⟩ 0x3F800000 ≠
      .number 0x3FF0000000000000 := by
  decide

/-- C18: for every kind among char, short, int, int8, int16, int32, every
flag word and every platform (so either default signedness of `char`),
`lua_push_cdata` takes its signed reinterpretation arm exactly when
`get_ffi_type` returns a signed integer descriptor for the same type
descriptor. -/
theorem lua_push_cdata_signed_branch_iff (P : Platform) (tp : c_type) (T : ctype) (value : Nat)
    (h : round_trip_type tp.type = some T) :
    push_takes_signed P tp = some (get_ffi_type P tp).is_sint ∧
    (lua_push_cdata P tp value =
      if (get_ffi_type P tp).is_sint then push_signed P value else push_unsigned P value) := by
  have e : push_takes_signed P tp = some (get_ffi_type P tp).is_sint := by
    rw [is_sint_get_ffi_type_of_round_trip_type P tp T h]
    exact push_takes_signed_of_round_trip_type P tp T h
  exact ⟨e, lua_push_cdata_of_push_takes_signed P tp _ value e⟩

/-- An instance of C18: unqualified `char` on a platform where `char` is
unsigned by default. -/
theorem lua_push_cdata_signed_branch_iff_witness :
    push_takes_signed (lp64 false) ⟨C_BUILTIN_CHAR, 0⟩ =
      some (get_ffi_type (lp64 false) ⟨C_BUILTIN_CHAR, 0⟩).is_sint :=
  (lua_push_cdata_signed_branch_iff (lp64 false) ⟨C_BUILTIN_CHAR, 0⟩ .char 200 rfl).1

/-- C19: when `ffi_arg` and `lua_Integer` are both 64 bits wide, for every
kind among char, short, int, int8, int16, int32 and every raw cell value, the
signed arm and the unsigned arm of `lua_push_cdata` both yield the 64 bits of
the cell read as a two's complement integer; so does `lua_push_cdata` for
every flag word, and the result is the same for any two type descriptors of
these kinds. -/
theorem lua_push_cdata_qualifier_independent (P : Platform) (tp : c_type) (T : ctype) (value : Nat)
    (h : round_trip_type tp.type = some T) (hA : P.sizeof_ffi_arg = 8)
    (hL : P.sizeof_lua_Integer = 8) :
    push_signed P value = .integer (to_signed 8 value) ∧
    push_unsigned P value = .integer (to_signed 8 value) ∧
    lua_push_cdata P tp value = .integer (to_signed 8 value) ∧
    (∀ (tp2 : c_type) (T2 : ctype), round_trip_type tp2.type = some T2 →
      lua_push_cdata P tp2 value = lua_push_cdata P tp value) := by
  refine ⟨(push_of_64_bits P value hA hL).1, (push_of_64_bits P value hA hL).2,
    lua_push_cdata_of_64_bits P tp T value h hA hL, fun tp2 T2 h2 => ?_⟩
  rw [lua_push_cdata_of_64_bits P tp T value h hA hL,
    lua_push_cdata_of_64_bits P tp2 T2 value h2 hA hL]

/-- An instance of C19: the all-ones cell under an explicitly unsigned int32
on LP64. -/
theorem lua_push_cdata_qualifier_independent_witness :
    lua_push_cdata (lp64 true) ⟨C_BUILTIN_INT32, C_CV_UNSIGNED⟩ (2 ^ 64 - 1) =
      .integer (to_signed 8 ((2 ^ 64 - 1 : Nat) : Int)) :=
  (lua_push_cdata_qualifier_independent (lp64 true) ⟨C_BUILTIN_INT32, C_CV_UNSIGNED⟩
    .int32_t (2 ^ 64 - 1) rfl rfl rfl).2.2.1

/-! ## Further round trips -/

/-- C15: on the 64-bit little-endian platform model, for every kind among
char, short, int, int8, int16, int32 (native width `w` bytes), every flag
word and every integer `v` with `0 ≤ v < 2 ^ (8 * w - 1)`: decoding the
number `v` into a zero-filled cell succeeds and leaves the `w`-byte two's
complement representation of `v` followed by zero bytes, and encoding that
cell under the same type descriptor yields the number `v`. -/
theorem round_trip_in_range (cs : Bool) (tp : c_type) (T : ctype) (v : Int) (d f : Nat)
    (h : round_trip_type tp.type = some T) (h0 : 0 ≤ v)
    (hv : v < 2 ^ (8 * sizeof (lp64 cs) T - 1)) :
    (lua_check_cdata (lp64 cs) (.number v d f) tp (List.replicate 8 0)).error = none ∧
    (lua_check_cdata (lp64 cs) (.number v d f) tp (List.replicate 8 0)).stor =
      le_bytes (sizeof (lp64 cs) T) v.toNat ++
        List.replicate (8 - sizeof (lp64 cs) T) 0 ∧
    round_trip (lp64 cs) tp (.number v d f) = .integer v := by
  have hn := native_type_of_round_trip_type tp.type T h
  have hle : (2 : Int) ^ (8 * sizeof (lp64 cs) T - 1) ≤ 2 ^ (8 * sizeof (lp64 cs) T) :=
    pow_le_pow_right₀ (by norm_num) (Nat.sub_le _ _)
  have hm : v % 2 ^ (8 * sizeof (lp64 cs) T) = v :=
    Int.emod_eq_of_lt h0 (lt_of_lt_of_le hv hle)
  refine ⟨lua_check_cdata_number_error _ tp T v d f _ hn, ?_, ?_⟩
  · rw [lua_check_cdata_number_stor _ tp T v d f _ hn, hm]
    unfold store
    rw [List.drop_replicate]
  · rw [round_trip_lp64 cs tp T v d f h, hm]

/-- An instance of C15: 42 through an explicitly signed int32 comes back as
42. -/
theorem round_trip_in_range_witness :
    round_trip (lp64 true) ⟨C_BUILTIN_INT32, C_CV_SIGNED⟩
      (.number 42 0x4045000000000000 0x42280000) = .integer 42 :=
  (round_trip_in_range true ⟨C_BUILTIN_INT32, C_CV_SIGNED⟩ .int32_t 42
    0x4045000000000000 0x42280000 rfl (by decide) (by decide)).2.2

/-- C16: for every boolean `b` and every flag word, on a platform where `int`
and `ffi_arg` have at least one byte, decoding `b` into a zero-filled cell
with the boolean target succeeds and leaves the byte 1 (for true) or 0 (for
false) followed by zero bytes, and encoding that cell with the boolean kind
yields `b`. -/
theorem round_trip_boolean (P : Platform) (cv : Nat) (b : Bool) (hi : 0 < P.sizeof_int)
    (ha : 0 < P.sizeof_ffi_arg) :
    (lua_check_cdata P (.boolean b) ⟨C_BUILTIN_BOOL, cv⟩
      (List.replicate P.sizeof_ffi_arg 0)).error = none ∧
    (lua_check_cdata P (.boolean b) ⟨C_BUILTIN_BOOL, cv⟩
      (List.replicate P.sizeof_ffi_arg 0)).stor =
        (if b then 1 else 0) :: List.replicate (P.sizeof_ffi_arg - 1) 0 ∧
    round_trip P ⟨C_BUILTIN_BOOL, cv⟩ (.boolean b) = .boolean b := by
  have hone : (1 : Int) % 2 ^ (8 * P.sizeof_int) ≠ 0 := by
    have h256 : (2 : Int) ^ 8 ≤ 2 ^ (8 * P.sizeof_int) :=
      pow_le_pow_right₀ (by norm_num) (by omega)
    have : (1 : Int) % 2 ^ (8 * P.sizeof_int) = 1 :=
      Int.emod_eq_of_lt (by norm_num) (by norm_num at h256 ⊢; omega)
    rw [this]
    norm_num
  have hb : ∀ x : Nat, le_bytes 1 x = [x % 256] := fun x => by
    rw [le_bytes_succ]
    rfl
  refine ⟨rfl, ?_, ?_⟩
  · cases b <;> simp [lua_check_cdata, lua_toboolean, store, hb, List.drop_replicate]
  · unfold round_trip
    simp only [lua_check_cdata]
    rw [load_store_zero_cell _ _ _ ha]
    cases b
    · simp [lua_toboolean, lua_push_cdata, to_signed]
    · have hne : to_signed P.sizeof_int ((1 : Nat) : Int) ≠ 0 := by
        intro c
        exact hone ((to_signed_eq_zero_iff _ _).1 (by simpa using c))
      have e1 : (if lua_toboolean (.boolean true) = true then 1 else 0) % 256 ^ 1 = 1 := by
        decide
      rw [e1]
      simp only [lua_push_cdata]
      rw [bne_iff_ne.mpr hne]

/-- An instance of C16: true through the boolean kind on LP64. -/
theorem round_trip_boolean_witness :
    round_trip (lp64 true) ⟨C_BUILTIN_BOOL, 0⟩ (.boolean true) = .boolean true :=
  (round_trip_boolean (lp64 true) 0 true (by decide) (by decide)).2.2

end ffi
